import Mathlib

/-!
Verification of the scimterface repository: a shallow embedding of its
SCIM schema/attribute data model (src/scim_utilities.py) and of its
backend loader and request dispatcher (src/app.py, src/scim_system.py),
with theorems settling the specification's claims about them.
-/

/-- Embeds `AttributeType` of src/scim_utilities.py: the schema attribute type. -/
inductive AttributeType where
  | string
  | boolean
  | decimal
  | integer
  | dateTime
  | reference
  | complex
  deriving DecidableEq

/-- Embeds `Mutability` of src/scim_utilities.py. -/
inductive Mutability where
  | readOnly
  | readWrite
  | immutable
  | writeOnly
  deriving DecidableEq

/-- Embeds `Returned` of src/scim_utilities.py. -/
inductive Returned where
  | always
  | never
  | default
  | request
  deriving DecidableEq

/-- Embeds `Uniqueness` of src/scim_utilities.py. -/
inductive Uniqueness where
  | none
  | server
  | global
  deriving DecidableEq

/-- Embeds `ReferenceTypes` of src/scim_utilities.py. -/
inductive ReferenceTypes where
  | user
  | group
  | external
  | uri
  deriving DecidableEq

/-- Embeds `SCIMViolation` of src/scim_utilities.py: the exception raised for a
violation of the SCIM standard, carrying its message. -/
structure SCIMViolation where
  message : String
  deriving DecidableEq

/-- Embeds the field record a constructed `SchemaAttribute` object holds, one
constructor argument per field assigned in `SchemaAttribute.__init__`, in the
source's assignment order.  The sixth field is named `requred` because the
source assigns `self.requred = required`. -/
inductive SchemaAttribute where
  | mk
    (name : String)
    (type : AttributeType)
    (sub_attributes : Option (List SchemaAttribute))
    (multi_valued : Bool)
    (description : String)
    (requred : Bool)
    (canonical_values : Option (List String))
    (case_exact : Bool)
    (mutability : Mutability)
    (returned : Returned)
    (uniqueness : Uniqueness)
    (reference_types : Option ReferenceTypes)

/-- Projection: the `name` field of a `SchemaAttribute`. -/
def SchemaAttribute.name : SchemaAttribute → String
  | .mk n _ _ _ _ _ _ _ _ _ _ _ => n

/-- Projection: the `type` field of a `SchemaAttribute`. -/
def SchemaAttribute.type : SchemaAttribute → AttributeType
  | .mk _ t _ _ _ _ _ _ _ _ _ _ => t

/-- Projection: the `sub_attributes` field of a `SchemaAttribute`. -/
def SchemaAttribute.sub_attributes : SchemaAttribute → Option (List SchemaAttribute)
  | .mk _ _ s _ _ _ _ _ _ _ _ _ => s

/-- Projection: the `multi_valued` field of a `SchemaAttribute`. -/
def SchemaAttribute.multi_valued : SchemaAttribute → Bool
  | .mk _ _ _ m _ _ _ _ _ _ _ _ => m

/-- Projection: the `description` field of a `SchemaAttribute`. -/
def SchemaAttribute.description : SchemaAttribute → String
  | .mk _ _ _ _ d _ _ _ _ _ _ _ => d

/-- Projection: the `requred` field (the source's misspelt storage of the
`required` constructor argument) of a `SchemaAttribute`. -/
def SchemaAttribute.requred : SchemaAttribute → Bool
  | .mk _ _ _ _ _ r _ _ _ _ _ _ => r

/-- Projection: the `canonical_values` field of a `SchemaAttribute`. -/
def SchemaAttribute.canonical_values : SchemaAttribute → Option (List String)
  | .mk _ _ _ _ _ _ c _ _ _ _ _ => c

/-- Projection: the `case_exact` field of a `SchemaAttribute`. -/
def SchemaAttribute.case_exact : SchemaAttribute → Bool
  | .mk _ _ _ _ _ _ _ c _ _ _ _ => c

/-- Projection: the `mutability` field of a `SchemaAttribute`. -/
def SchemaAttribute.mutability : SchemaAttribute → Mutability
  | .mk _ _ _ _ _ _ _ _ m _ _ _ => m

/-- Projection: the `returned` field of a `SchemaAttribute`. -/
def SchemaAttribute.returned : SchemaAttribute → Returned
  | .mk _ _ _ _ _ _ _ _ _ r _ _ => r

/-- Projection: the `uniqueness` field of a `SchemaAttribute`. -/
def SchemaAttribute.uniqueness : SchemaAttribute → Uniqueness
  | .mk _ _ _ _ _ _ _ _ _ _ u _ => u

/-- Projection: the `reference_types` field of a `SchemaAttribute`. -/
def SchemaAttribute.reference_types : SchemaAttribute → Option ReferenceTypes
  | .mk _ _ _ _ _ _ _ _ _ _ _ r => r

/-- The warning message built by
`SchemaAttribute._warn_on_complex_type_missing_sub_attributes`. -/
def complexWarningMessage (name : String) : String :=
  "Attribute \"" ++ name ++
    "\" has the type \"complex\", but is missing sub-attributes. This is recommended per RFC 7643 § 7."

/-- The exception message built by
`SchemaAttribute._throw_exception_on_sub_attributes_but_not_complex_type`. -/
def violationMessage (name : String) : String :=
  "Attribute \"" ++ name ++ "\" has sub-attributes, but is not of type \"complex\""

/-- Embeds `SchemaAttribute.__init__` of src/scim_utilities.py: assigns the
twelve fields, then runs `_warn_on_complex_type_missing_sub_attributes`
(warning iff the type is `complex` and `sub_attributes` is `None`), then runs
`_throw_exception_on_sub_attributes_but_not_complex_type` (raising
`SCIMViolation` iff the type is not `complex` and `sub_attributes` is not
`None`).  The two conditions are mutually exclusive, so no run both warns and
raises; a successful construction returns the object together with the list of
warnings emitted. -/
def SchemaAttribute.init (name : String) (type : AttributeType)
    (sub_attributes : Option (List SchemaAttribute)) (multi_valued : Bool)
    (description : String) (required : Bool) (canonical_values : Option (List String))
    (case_exact : Bool) (mutability : Mutability) (returned : Returned)
    (uniqueness : Uniqueness) (reference_types : Option ReferenceTypes) :
    Except SCIMViolation (SchemaAttribute × List String) :=
  let a : SchemaAttribute := .mk name type sub_attributes multi_valued description
    required canonical_values case_exact mutability returned uniqueness reference_types
  let warnings : List String :=
    if type == AttributeType.complex && sub_attributes.isNone then
      [complexWarningMessage name]
    else []
  if type != AttributeType.complex && sub_attributes.isSome then
    Except.error (SCIMViolation.mk (violationMessage name))
  else
    Except.ok (a, warnings)

/-- Embeds the field record a constructed `SCIMSchema` object holds. -/
structure SCIMSchemaRec where
  id : String
  name : String
  description : String
  attributes : List SchemaAttribute

/-- Embeds `SCIMSchema.__init__` of src/scim_utilities.py.  Its body consists
of the four field assignments only: it contains no check and no `raise`
statement, so construction always succeeds. -/
def SCIMSchema.init (id name description : String)
    (attributes : List SchemaAttribute) : Except SCIMViolation SCIMSchemaRec :=
  Except.ok (SCIMSchemaRec.mk id name description attributes)

/-- Embeds the Python values the fields of a `SchemaAttribute` object hold,
for modelling dynamic attribute access (`getattr`). -/
inductive PyVal where
  | str (s : String)
  | boolean (b : Bool)
  | attrType (t : AttributeType)
  | optAttrs (l : Option (List SchemaAttribute))
  | optStrs (l : Option (List String))
  | mut (m : Mutability)
  | ret (r : Returned)
  | uniq (u : Uniqueness)
  | refT (r : Option ReferenceTypes)

/-- The instance attribute dictionary of a constructed `SchemaAttribute`
object: exactly the names assigned in `SchemaAttribute.__init__`, in the
source's assignment order.  Note the name `requred`, from the source line
`self.requred = required`. -/
def SchemaAttribute.instanceAttrs : SchemaAttribute → List (String × PyVal)
  | .mk n t subs mv d req cv ce mu re u rt =>
    [("name", .str n), ("type", .attrType t), ("sub_attributes", .optAttrs subs),
     ("multi_valued", .boolean mv), ("description", .str d),
     ("requred", .boolean req),
     ("canonical_values", .optStrs cv), ("case_exact", .boolean ce),
     ("mutability", .mut mu), ("returned", .ret re), ("uniqueness", .uniq u),
     ("reference_types", .refT rt)]

/-- Models Python `getattr` on a constructed `SchemaAttribute` object:
`none` means the access raises `AttributeError`. -/
def pyGetattr (a : SchemaAttribute) (field : String) : Option PyVal :=
  a.instanceAttrs.lookup field

/-- Embeds a JSON-style value, the shape of the structured data the program
builds (Python dicts are insertion-ordered, so an object is an ordered
association list). -/
inductive JValue where
  | null
  | str (s : String)
  | boolean (b : Bool)
  | num (n : Nat)
  | arr (xs : List JValue)
  | obj (fields : List (String × JValue))

/-- The keys of a JSON object, in order; `[]` for a non-object. -/
def jKeys : JValue → List String
  | .obj fields => fields.map Prod.fst
  | _ => []

/-- Looks a key up in a JSON object; `none` for a missing key or non-object. -/
def jLookup (v : JValue) (key : String) : Option JValue :=
  match v with
  | .obj fields => fields.lookup key
  | _ => none

/-- Embeds `create_base_list_response` of src/scim_utilities.py. -/
def create_base_list_response (resources : List JValue) : JValue :=
  JValue.obj
    [("schemas", JValue.arr [JValue.str "urn:ietf:params:scim:api:messages:2.0:ListResponse"]),
     ("totalResults", JValue.num resources.length),
     ("Resources", JValue.arr resources)]

/-- Embeds a concrete backend class: whether it is a subclass of `SCIMSystem`,
and the contract operations it overrides, each mapped to the payload its
override returns. -/
structure BackendClass where
  isSCIMSubclass : Bool
  overrides : List (String × String)

/-- Embeds a member of a loaded Python module, in the order
`inspect.getmembers` yields them (sorted by member name). -/
inductive Member where
  | nonClass (name : String)
  | cls (name : String) (c : BackendClass)

/-- Embeds a Python exception relevant to the dispatch flow of src/app.py. -/
inductive PyError where
  | typeError
  | notImplementedError
  | attributeError
  | keyError
  | systemSubclassMissing
  deriving DecidableEq

/-- The method table of `SCIMSystem` (src/scim_system.py): each contract
operation name with the HTTP method and endpoint its docstring names.  All
twenty methods are decorated `@abstractmethod` and their default bodies raise
`NotImplementedError`. -/
def scimSystemMethods : List (String × String × String) :=
  [("get_users", "GET", "/Users"), ("post_users", "POST", "/Users"),
   ("put_users", "PUT", "/Users"), ("patch_users", "PATCH", "/Users"),
   ("delete_users", "DELETE", "/Users"), ("get_groups", "GET", "/Groups"),
   ("post_groups", "POST", "/Groups"), ("put_groups", "PUT", "/Groups"),
   ("patch_groups", "PATCH", "/Groups"), ("delete_groups", "DELETE", "/Groups"),
   ("get_me", "GET", "/Me"), ("post_me", "POST", "/Me"), ("put_me", "PUT", "/Me"),
   ("patch_me", "PATCH", "/Me"), ("delete_me", "DELETE", "/Me"),
   ("get_service_provider_config", "GET", "/ServiceProviderConfig"),
   ("get_resource_types", "GET", "/ResourceTypes"), ("get_schemas", "GET", "/Schemas"),
   ("post_bulk", "POST", "/Bulk"), ("post_search", "POST", "/.search")]

/-- Embeds Python class instantiation `target_subclass()` under the `abc`
machinery: every method of `SCIMSystem` is `@abstractmethod`, so a subclass
instantiates only when it overrides all twenty; otherwise Python raises
`TypeError` (cannot instantiate abstract class). -/
def instantiate (c : BackendClass) : Except PyError BackendClass :=
  if scimSystemMethods.all (fun m => (c.overrides.lookup m.fst).isSome) then
    Except.ok c
  else Except.error PyError.typeError

/-- Embeds `getattr(obj, key)` followed by the call `()` on a backend
instance: an overridden operation returns its payload; an operation the class
inherits from `SCIMSystem` raises `NotImplementedError` (the default body);
any other name makes `getattr` raise `AttributeError`. -/
def pyCallMethod (inst : BackendClass) (key : String) : Except PyError String :=
  match inst.overrides.lookup key with
  | some payload => Except.ok payload
  | none =>
    if (scimSystemMethods.find? (fun m => m.fst == key)).isSome then
      Except.error PyError.notImplementedError
    else
      Except.error PyError.attributeError

/-- Embeds Python `str.lower` for the ASCII strings the dispatcher handles:
each character is lower-cased. -/
def pyLower (s : String) : String := String.mk (s.toList.map Char.toLower)

/-- Embeds Python `str.strip(c)`: removes leading and trailing occurrences of
the character `c`. -/
def pyStrip (c : Char) (s : String) : String :=
  String.mk (((s.toList.dropWhile (fun x => x == c)).reverse.dropWhile
    (fun x => x == c)).reverse)

/-- Embeds `get_lowercase_method` of src/app.py. -/
def get_lowercase_method (method : String) : String := pyLower method

/-- Embeds `get_endpoint` of src/app.py: `endpoint.strip("/").lower()`. -/
def get_endpoint (endpoint : String) : String := pyLower (pyStrip '/' endpoint)

/-- Embeds `call_method_and_endpoint_on_obj` of src/app.py: derives the
operation key from the normalized method and endpoint and calls that
attribute on the backend object. -/
def call_method_and_endpoint_on_obj (method endpoint : String) (obj : BackendClass) :
    Except PyError String :=
  pyCallMethod obj (get_lowercase_method method ++ "_" ++ get_endpoint endpoint)

/-- The backend catalog: the `./systems/` directory, mapping each system name
(a file stem) to the members defined by executing that file. -/
abbrev Catalog := List (String × List Member)

/-- The mutable process state the loader touches: `sys.modules` (an entry is
prepended on each assignment, so the most recent one shadows the rest) and a
log of `exec_module` executions, one entry per module load. -/
structure ServerState where
  sysModules : List (String × List Member)
  loadEvents : List String

/-- Embeds `load_module` of src/app.py: builds the module from the system's
file, stores it in `sys.modules`, executes it (recorded in the load log) and
returns the module name.  The body performs these steps unconditionally —
it never consults `sys.modules` before loading. -/
def load_module (cat : Catalog) (st : ServerState) (system_name : String) :
    ServerState × String :=
  let module_name := "systems." ++ system_name
  let members := (cat.lookup system_name).getD []
  (ServerState.mk ((module_name, members) :: st.sysModules)
    (st.loadEvents ++ [system_name]), module_name)

/-- Embeds the loop body of `get_system_subclass` (src/app.py lines 44-52)
over the module's member list: non-classes are skipped; at the first class
member, the function returns it if it subclasses `SCIMSystem` and otherwise
raises `SystemSubclassMissing`; an exhausted loop falls through and returns
`None`. -/
def find_system_subclass : List Member → Except PyError (Option BackendClass)
  | [] => Except.ok none
  | Member.nonClass _ :: rest => find_system_subclass rest
  | Member.cls _ c :: _ =>
    if c.isSCIMSubclass then Except.ok (some c)
    else Except.error PyError.systemSubclassMissing

/-- Embeds `get_system_subclass` of src/app.py: reads the module from
`sys.modules` (a missing key raises `KeyError`) and scans its members. -/
def get_system_subclass (st : ServerState) (module_name : String) :
    Except PyError (Option BackendClass) :=
  match st.sysModules.lookup module_name with
  | none => Except.error PyError.keyError
  | some members => find_system_subclass members

/-- Embeds `check_system_name_exists` of src/app.py: whether a file for the
system name exists in the `./systems/` directory. -/
def check_system_name_exists (cat : Catalog) (system_name : String) : Bool :=
  (cat.lookup system_name).isSome

/-- The HTTP-level outcome of a dispatched request: a successful payload, an
`abort(404)`, or an unhandled Python exception (which the host framework
turns into a 500-class fault, not a 404). -/
inductive Outcome where
  | success (payload : String)
  | abort404
  | fault (e : PyError)

/-- Embeds `scim_endpoint` of src/app.py: checks the system file exists
(otherwise `abort(404)`), loads the module, extracts the backend class,
instantiates it with no arguments (`None()` — when the scan fell through —
and an abstract class both raise `TypeError`), and calls the derived
operation inside `try: ... except AttributeError: abort(404)`.  Only
`AttributeError` is caught there; every other exception escapes as an
unhandled fault. -/
def scim_endpoint (cat : Catalog) (st : ServerState) (method system_name endpoint : String) :
    ServerState × Outcome :=
  if !(check_system_name_exists cat system_name) then (st, Outcome.abort404)
  else
    let loaded := load_module cat st system_name
    let st := loaded.fst
    match get_system_subclass st loaded.snd with
    | Except.error e => (st, Outcome.fault e)
    | Except.ok none => (st, Outcome.fault PyError.typeError)
    | Except.ok (some target_subclass) =>
      match instantiate target_subclass with
      | Except.error e => (st, Outcome.fault e)
      | Except.ok inst =>
        match call_method_and_endpoint_on_obj method endpoint inst with
        | Except.ok payload => (st, Outcome.success payload)
        | Except.error PyError.attributeError => (st, Outcome.abort404)
        | Except.error e => (st, Outcome.fault e)

/-- Dispatches a sequence of requests `(method, system_name, endpoint)`
through `scim_endpoint`, threading the process state. -/
def runRequests (cat : Catalog) : ServerState → List (String × String × String) → ServerState
  | st, [] => st
  | st, (method, system_name, endpoint) :: rest =>
    runRequests cat (scim_endpoint cat st method system_name endpoint).fst rest

/-- Transcribes the `name` sub-attribute of `Schema._SCHEMA_ATTRIBUTES`
(src/scim_utilities.py).  The source repeats this construction verbatim under
both `attributes` and `attributes.subAttributes`; it is defined once here and
used in both places. -/
def subAttrName : SchemaAttribute :=
  SchemaAttribute.mk "name" AttributeType.string none false
    "The attribute's name." true none true
    Mutability.readOnly Returned.default Uniqueness.none none

/-- Transcribes the `type` sub-attribute of `Schema._SCHEMA_ATTRIBUTES`. -/
def subAttrType : SchemaAttribute :=
  SchemaAttribute.mk "type" AttributeType.string none false
    "The attribute's data type. Valid values include 'string', 'complex', 'boolean', 'decimal', 'integer', 'dateTime', 'reference'."
    true (some ["string", "complex", "boolean", "decimal", "integer", "dateTime", "reference"])
    false Mutability.readOnly Returned.default Uniqueness.none none

/-- Transcribes the `multiValued` sub-attribute of `Schema._SCHEMA_ATTRIBUTES`. -/
def subAttrMultiValued : SchemaAttribute :=
  SchemaAttribute.mk "multiValued" AttributeType.boolean none false
    "A Boolean value indicating an attribute's plurality." true none false
    Mutability.readOnly Returned.default Uniqueness.none none

/-- Transcribes the `description` sub-attribute of `Schema._SCHEMA_ATTRIBUTES`. -/
def subAttrDescription : SchemaAttribute :=
  SchemaAttribute.mk "description" AttributeType.string none false
    "A human-readable description of the attribute." false none true
    Mutability.readOnly Returned.default Uniqueness.none none

/-- Transcribes the `required` sub-attribute of `Schema._SCHEMA_ATTRIBUTES`. -/
def subAttrRequired : SchemaAttribute :=
  SchemaAttribute.mk "required" AttributeType.boolean none false
    "A boolean value indicating whether or not the attribute is required." false none false
    Mutability.readOnly Returned.default Uniqueness.none none

/-- Transcribes the `canonicalValues` sub-attribute of `Schema._SCHEMA_ATTRIBUTES`. -/
def subAttrCanonicalValues : SchemaAttribute :=
  SchemaAttribute.mk "canonicalValues" AttributeType.string none true
    "A collection of canonical values. When applicable, service providers MUST specify the canonical types, e.g., 'work', 'home'."
    false none true Mutability.readOnly Returned.default Uniqueness.none none

/-- Transcribes the `caseExact` sub-attribute of `Schema._SCHEMA_ATTRIBUTES`. -/
def subAttrCaseExact : SchemaAttribute :=
  SchemaAttribute.mk "caseExact" AttributeType.boolean none false
    "A Boolean value indicating whether or not a string attribute is case sensitive." false none false
    Mutability.readOnly Returned.default Uniqueness.none none

/-- Transcribes the `mutability` sub-attribute of `Schema._SCHEMA_ATTRIBUTES`. -/
def subAttrMutability : SchemaAttribute :=
  SchemaAttribute.mk "mutability" AttributeType.string none false
    "Indicates whether or not an attribute is modifiable." false
    (some ["readOnly", "readWrite", "immutable", "writeOnly"]) true
    Mutability.readOnly Returned.default Uniqueness.none none

/-- Transcribes the `returned` sub-attribute of `Schema._SCHEMA_ATTRIBUTES`. -/
def subAttrReturned : SchemaAttribute :=
  SchemaAttribute.mk "returned" AttributeType.string none false
    "Indicates whether or not an attribute is returned in a response (e.g., to a query)." false
    (some ["always", "never", "default", "request"]) true
    Mutability.readOnly Returned.default Uniqueness.none none

/-- Transcribes the `uniqueness` sub-attribute of `Schema._SCHEMA_ATTRIBUTES`. -/
def subAttrUniqueness : SchemaAttribute :=
  SchemaAttribute.mk "uniqueness" AttributeType.string none false
    "Indicates how unique a value must be." false
    (some ["none", "server", "global"]) true
    Mutability.readOnly Returned.default Uniqueness.none none

/-- Transcribes the `referenceTypes` sub-attribute of `Schema._SCHEMA_ATTRIBUTES`. -/
def subAttrReferenceTypes : SchemaAttribute :=
  SchemaAttribute.mk "referenceTypes" AttributeType.string none true
    "Used only with an attribute of type 'reference'. Specifies a SCIM resourceType that a reference attribute MAY refer to, e.g., 'User'."
    false none true Mutability.readOnly Returned.default Uniqueness.none none

/-- Transcribes the `subAttributes` sub-attribute of `Schema._SCHEMA_ATTRIBUTES`:
a complex attribute whose own sub-attributes repeat the eleven attribute
metadata fields. -/
def subAttrSubAttributes : SchemaAttribute :=
  SchemaAttribute.mk "subAttributes" AttributeType.complex
    (some [subAttrName, subAttrType, subAttrMultiValued, subAttrDescription,
      subAttrRequired, subAttrCanonicalValues, subAttrCaseExact, subAttrMutability,
      subAttrReturned, subAttrUniqueness, subAttrReferenceTypes])
    true "Used to define the sub-attributes of a complex attribute." false none false
    Mutability.readOnly Returned.default Uniqueness.none none

/-- Transcribes `Schema._SCHEMA_ATTRIBUTES` of src/scim_utilities.py: the four
attributes `id`, `name`, `description`, `attributes` of the meta-schema. -/
def SCHEMA_ATTRIBUTES : List SchemaAttribute :=
  [SchemaAttribute.mk "id" AttributeType.string none false
    "The unique URI of the schema. When applicable, service providers MUST specify the URI."
    true none false Mutability.readOnly Returned.default Uniqueness.none none,
   SchemaAttribute.mk "name" AttributeType.string none false
    "The schema's human-readable name. When applicable, service providers MUST specify the name, e.g., 'User'."
    true none false Mutability.readOnly Returned.default Uniqueness.none none,
   SchemaAttribute.mk "description" AttributeType.string none false
    "The schema's human-readable description. When applicable, service providers MUST specify the description."
    false none false Mutability.readOnly Returned.default Uniqueness.none none,
   SchemaAttribute.mk "attributes" AttributeType.complex
    (some [subAttrName, subAttrType, subAttrMultiValued, subAttrDescription,
      subAttrRequired, subAttrCanonicalValues, subAttrCaseExact, subAttrMutability,
      subAttrReturned, subAttrUniqueness, subAttrReferenceTypes, subAttrSubAttributes])
    true "A complex attribute that includes the attributes of a schema."
    true none false Mutability.readOnly Returned.default Uniqueness.none none]

/-- Embeds `Schema.__init__` of src/scim_utilities.py: the built-in
meta-schema instance, the `Schema` resource that describes SCIM schemas. -/
def Schema_instance : SCIMSchemaRec :=
  SCIMSchemaRec.mk "urn:ietf:params:scim:schemas:core:2.0:Schema" "Schema"
    "Specifies the schema that describes a SCIM schema" SCHEMA_ATTRIBUTES

/-- The `value` string of each `AttributeType` enum member of the source. -/
def attributeTypeValue : AttributeType → String
  | .string => "string"
  | .boolean => "boolean"
  | .decimal => "decimal"
  | .integer => "integer"
  | .dateTime => "dateTime"
  | .reference => "reference"
  | .complex => "complex"

/-- The `value` string of each `Mutability` enum member of the source. -/
def mutabilityValue : Mutability → String
  | .readOnly => "readOnly"
  | .readWrite => "readWrite"
  | .immutable => "immutable"
  | .writeOnly => "writeOnly"

/-- The `value` string of each `Returned` enum member of the source. -/
def returnedValue : Returned → String
  | .always => "always"
  | .never => "never"
  | .default => "default"
  | .request => "request"

/-- The `value` string of each `Uniqueness` enum member of the source. -/
def uniquenessValue : Uniqueness → String
  | .none => "none"
  | .server => "server"
  | .global => "global"

/-- The `value` string of each `ReferenceTypes` enum member of the source. -/
def referenceTypesValue : ReferenceTypes → String
  | .user => "User"
  | .group => "Group"
  | .external => "external"
  | .uri => "uri"

/-- Serialization of an optional canonical-value list: null when absent. -/
def optStrsToJson : Option (List String) → JValue
  | none => JValue.null
  | some l => JValue.arr (l.map JValue.str)

/-- Serialization of the optional reference-target kind: null when absent. -/
def optRefToJson : Option ReferenceTypes → JValue
  | none => JValue.null
  | some r => JValue.str (referenceTypesValue r)

mutual

/-- Modelled from the spec: serialization of one `SchemaAttribute` to the
RFC 7643 section 7 wire object.  `SCIMSchema.dumps` is declared abstract in
src/scim_utilities.py (its body is `pass`) and no class in the repository
implements it, so the attribute-object shape follows the spec's wire format:
keys `name`, `type`, `multiValued`, `description`, `required`,
`canonicalValues`, `caseExact`, `mutability`, `returned`, `uniqueness`,
`referenceTypes`, `subAttributes`, with enum members rendered as their
canonical value strings and an absent optional field rendered as null. -/
def attrToJson : SchemaAttribute → JValue
  | .mk n t subs mv d req cv ce mu re u rt =>
    JValue.obj
      [("name", JValue.str n),
       ("type", JValue.str (attributeTypeValue t)),
       ("multiValued", JValue.boolean mv),
       ("description", JValue.str d),
       ("required", JValue.boolean req),
       ("canonicalValues", optStrsToJson cv),
       ("caseExact", JValue.boolean ce),
       ("mutability", JValue.str (mutabilityValue mu)),
       ("returned", JValue.str (returnedValue re)),
       ("uniqueness", JValue.str (uniquenessValue u)),
       ("referenceTypes", optRefToJson rt),
       ("subAttributes", optAttrsToJson subs)]

/-- Serialization of an optional sub-attribute list: null when absent. -/
def optAttrsToJson : Option (List SchemaAttribute) → JValue
  | none => JValue.null
  | some l => JValue.arr (attrListToJson l)

/-- Serialization of a list of sub-attributes. -/
def attrListToJson : List SchemaAttribute → List JValue
  | [] => []
  | a :: rest => attrToJson a :: attrListToJson rest

end

/-- Modelled from the spec: `SCIMSchema.dumps`, the deterministic structured
representation of a schema definition — an object with keys `id`, `name`,
`description` and the ordered `attributes` list (spec sections 4.1 and 6).
The source declares `dumps` abstract with no implementation anywhere in the
repository. -/
def SCIMSchema.dumps (s : SCIMSchemaRec) : JValue :=
  JValue.obj
    [("id", JValue.str s.id), ("name", JValue.str s.name),
     ("description", JValue.str s.description),
     ("attributes", JValue.arr (attrListToJson s.attributes))]

/-- Reads a string out of an optional JSON value. -/
def asStr : Option JValue → Option String
  | some (JValue.str s) => some s
  | _ => none

/-- Reads a boolean out of an optional JSON value. -/
def asBool : Option JValue → Option Bool
  | some (JValue.boolean b) => some b
  | _ => none

/-- Parses an `AttributeType` back from its canonical value string. -/
def parseAttributeType : Option JValue → Option AttributeType
  | some (JValue.str "string") => some AttributeType.string
  | some (JValue.str "boolean") => some AttributeType.boolean
  | some (JValue.str "decimal") => some AttributeType.decimal
  | some (JValue.str "integer") => some AttributeType.integer
  | some (JValue.str "dateTime") => some AttributeType.dateTime
  | some (JValue.str "reference") => some AttributeType.reference
  | some (JValue.str "complex") => some AttributeType.complex
  | _ => none

/-- Parses a `Mutability` back from its canonical value string. -/
def parseMutability : Option JValue → Option Mutability
  | some (JValue.str "readOnly") => some Mutability.readOnly
  | some (JValue.str "readWrite") => some Mutability.readWrite
  | some (JValue.str "immutable") => some Mutability.immutable
  | some (JValue.str "writeOnly") => some Mutability.writeOnly
  | _ => none

/-- Parses a `Returned` back from its canonical value string. -/
def parseReturned : Option JValue → Option Returned
  | some (JValue.str "always") => some Returned.always
  | some (JValue.str "never") => some Returned.never
  | some (JValue.str "default") => some Returned.default
  | some (JValue.str "request") => some Returned.request
  | _ => none

/-- Parses a `Uniqueness` back from its canonical value string. -/
def parseUniqueness : Option JValue → Option Uniqueness
  | some (JValue.str "none") => some Uniqueness.none
  | some (JValue.str "server") => some Uniqueness.server
  | some (JValue.str "global") => some Uniqueness.global
  | _ => none

/-- Parses an optional reference-target kind back from the wire value. -/
def parseRefKind : Option JValue → Option (Option ReferenceTypes)
  | some JValue.null => some none
  | some (JValue.str "User") => some (some ReferenceTypes.user)
  | some (JValue.str "Group") => some (some ReferenceTypes.group)
  | some (JValue.str "external") => some (some ReferenceTypes.external)
  | some (JValue.str "uri") => some (some ReferenceTypes.uri)
  | _ => none

/-- Parses an optional canonical-value list back from the wire value. -/
def parseOptStrs : Option JValue → Option (Option (List String))
  | some JValue.null => some none
  | some (JValue.arr xs) =>
    (xs.mapM (fun x => match x with | JValue.str s => some s | _ => none)).map some
  | _ => none

/-- Parses one attribute object of the wire format back into a
`SchemaAttribute`, recursing into `subAttributes` (the `fuel` bound dominates
the nesting depth; parsing fails when it runs out). -/
def parseAttr : Nat → JValue → Option SchemaAttribute
  | 0, _ => none
  | fuel + 1, JValue.obj fields => do
    let n ← asStr (fields.lookup "name")
    let t ← parseAttributeType (fields.lookup "type")
    let subs ← match fields.lookup "subAttributes" with
      | some JValue.null => some none
      | some (JValue.arr xs) => (xs.mapM (parseAttr fuel)).map some
      | _ => none
    let mv ← asBool (fields.lookup "multiValued")
    let d ← asStr (fields.lookup "description")
    let req ← asBool (fields.lookup "required")
    let cv ← parseOptStrs (fields.lookup "canonicalValues")
    let ce ← asBool (fields.lookup "caseExact")
    let mu ← parseMutability (fields.lookup "mutability")
    let re ← parseReturned (fields.lookup "returned")
    let u ← parseUniqueness (fields.lookup "uniqueness")
    let rt ← parseRefKind (fields.lookup "referenceTypes")
    some (SchemaAttribute.mk n t subs mv d req cv ce mu re u rt)
  | _ + 1, _ => none

/-- Parses a serialized schema definition back into a `SCIMSchemaRec`. -/
def parseSCIMSchema (v : JValue) : Option SCIMSchemaRec := do
  let i ← asStr (jLookup v "id")
  let n ← asStr (jLookup v "name")
  let d ← asStr (jLookup v "description")
  let attrs ← match jLookup v "attributes" with
    | some (JValue.arr xs) => xs.mapM (parseAttr 32)
    | _ => none
  some (SCIMSchemaRec.mk i n d attrs)

/-- The attribute names a schema definition declares, in order. -/
def attrNamesOf (s : SCIMSchemaRec) : List String :=
  s.attributes.map SchemaAttribute.name

/-- The attribute types a schema definition declares, in order. -/
def attrTypesOf (s : SCIMSchemaRec) : List AttributeType :=
  s.attributes.map SchemaAttribute.type

/-- The canonical-value list of the sub-attribute named `sub` under the
schema's `attributes` attribute. -/
def subCanonicalOf (s : SCIMSchemaRec) (sub : String) : Option (List String) :=
  ((s.attributes.find? (fun a => a.name == "attributes")).bind
      SchemaAttribute.sub_attributes).bind
    (fun subs => (subs.find? (fun a => a.name == sub)).bind
      SchemaAttribute.canonical_values)

/-- A concrete schema attribute used as input in concrete instantiations. -/
def sampleAttr : SchemaAttribute :=
  SchemaAttribute.mk "a" AttributeType.string none false "a sample attribute" false
    none false Mutability.readWrite Returned.default Uniqueness.none none

/-- Models the `Example` class of src/systems/example.py: a `SCIMSystem`
subclass overriding only `get_users`. -/
def exampleClass : BackendClass :=
  BackendClass.mk true [("get_users", "[bob]")]

/-- Models the `SCIMSystem` class itself as it appears among the imported
members of src/systems/example.py (`issubclass(SCIMSystem, SCIMSystem)` holds
and it overrides nothing). -/
def scimSystemClass : BackendClass :=
  BackendClass.mk true []

/-- The members of the loaded `systems.example` module, in the sorted order
`inspect.getmembers` yields: the classes `Example` and `SCIMSystem`, then the
imported modules. -/
def exampleMembers : List Member :=
  [Member.cls "Example" exampleClass, Member.cls "SCIMSystem" scimSystemClass,
   Member.nonClass "json", Member.nonClass "scim_utilities"]

/-- A backend catalog holding the repository's one example system. -/
def exampleCatalog : Catalog := [("example", exampleMembers)]

/-- The process state before any request: nothing loaded. -/
def initialState : ServerState := ServerState.mk [] []

/-- C1: the claim says `get_system_subclass` fails with an explicit
contract-violation error both when the module contains zero conforming types
and when it contains more than one.  The code does neither: its member scan
(src/app.py lines 44-52) falls through and returns `None` for a module with
no class members, and returns the first conforming class — silently — for a
module with several, as this evaluation of both cases shows.  The spec's own
section 9 records this inverted check as a known defect of the source, so the
claim states the intent and the code is the slip. -/
theorem c1_loader_silently_accepts_zero_and_many :
    find_system_subclass [] = Except.ok none
  ∧ find_system_subclass
      [Member.cls "Example" exampleClass, Member.cls "SCIMSystem" scimSystemClass]
      = Except.ok (some exampleClass) :=
  ⟨rfl, rfl⟩

/-- C2: the claim says dispatching `DELETE /Groups` against a backend that
overrides only `get_users` yields HTTP 404.  Evaluating the code on the
repository's own example backend shows the request ends in an unhandled
`TypeError` instead: every `SCIMSystem` method is `@abstractmethod`, so the
partial subclass cannot be instantiated, and the dispatcher catches only
`AttributeError`.  The claim matches the documented contract (the default
bodies raising `NotImplementedError` exist precisely to be inherited) and the
repository's own example backend, so the code is the slip. -/
theorem c2_partial_backend_unhandled_fault :
    (scim_endpoint exampleCatalog initialState "DELETE" "example" "Groups").snd
      = Outcome.fault PyError.typeError := rfl

/-- C3 counterexample: dispatching the same backend name twice re-loads and
re-executes its module both times — the load log after two requests naming
`example` holds two entries, refuting "loaded and validated at most once per
process". -/
theorem c3_counterexample :
    (runRequests exampleCatalog initialState
      [("GET", "example", "Users"), ("GET", "example", "Users")]).loadEvents
      = ["example", "example"]
  ∧ ¬ ((runRequests exampleCatalog initialState
      [("GET", "example", "Users"), ("GET", "example", "Users")]).loadEvents.count
        "example" ≤ 1) :=
  ⟨rfl, by decide⟩

/-- C3 amended: the backend's code unit is loaded and executed once per
dispatched request naming it, not at most once per process — every request
whose system name exists in the catalog appends exactly one load event. -/
theorem c3_amended (cat : Catalog) (st : ServerState)
    (method system_name endpoint : String)
    (h : check_system_name_exists cat system_name = true) :
    (scim_endpoint cat st method system_name endpoint).fst.loadEvents
      = st.loadEvents ++ [system_name] := by
  unfold scim_endpoint
  rw [h]
  simp only [Bool.not_true, Bool.false_eq_true, if_false]
  split
  any_goals split
  any_goals split
  all_goals simp [load_module]

/-- Witness for the C3 amended theorem at a concrete catalog and request. -/
theorem c3_amended_witness :
    check_system_name_exists exampleCatalog "example" = true
  ∧ (scim_endpoint exampleCatalog initialState "GET" "example" "Users").fst.loadEvents
      = initialState.loadEvents ++ ["example"] :=
  ⟨rfl, c3_amended exampleCatalog initialState "GET" "example" "Users" rfl⟩

/-- C4: constructing a `SchemaAttribute` whose type is not `complex` with a
non-empty sub-attribute list raises `SCIMViolation`, so no attribute record
is produced. -/
theorem c4_nonComplex_with_subAttributes_fails (n : String) (t : AttributeType)
    (l : List SchemaAttribute) (mv : Bool) (d : String) (req : Bool)
    (cv : Option (List String)) (ce : Bool) (mu : Mutability) (re : Returned)
    (u : Uniqueness) (rt : Option ReferenceTypes)
    (ht : t ≠ AttributeType.complex) (_hl : l ≠ []) :
    SchemaAttribute.init n t (some l) mv d req cv ce mu re u rt
      = Except.error (SCIMViolation.mk (violationMessage n)) := by
  cases t <;> first | rfl | exact absurd rfl ht

/-- Witness for C4 at a concrete non-complex attribute carrying one
sub-attribute. -/
theorem c4_witness :
    (AttributeType.string ≠ AttributeType.complex
      ∧ [sampleAttr] ≠ ([] : List SchemaAttribute))
  ∧ SchemaAttribute.init "x" AttributeType.string (some [sampleAttr]) false "d" false
      none false Mutability.readWrite Returned.default Uniqueness.none none
      = Except.error (SCIMViolation.mk (violationMessage "x")) :=
  ⟨⟨by decide, List.cons_ne_nil _ _⟩,
   c4_nonComplex_with_subAttributes_fails "x" AttributeType.string [sampleAttr] false "d"
     false none false Mutability.readWrite Returned.default Uniqueness.none none
     (by decide) (List.cons_ne_nil _ _)⟩

/-- C5 counterexample: a complex attribute constructed with an *empty*
sub-attribute list succeeds with no advisory diagnostic at all — the
warning's condition is `sub_attributes == None`, which an empty list does not
meet — refuting the claim that the empty-list case succeeds with the
warning. -/
theorem c5_counterexample :
    SchemaAttribute.init "x" AttributeType.complex (some []) false "d" false none false
      Mutability.readWrite Returned.default Uniqueness.none none
      = Except.ok (SchemaAttribute.mk "x" AttributeType.complex (some []) false "d"
          false none false Mutability.readWrite Returned.default Uniqueness.none none,
        ([] : List String)) := rfl

/-- C5 amended: a complex attribute always constructs successfully; the
advisory diagnostic is emitted exactly when `sub_attributes` is absent
(`None`), and not when it is present — in particular not for an empty
list. -/
theorem c5_amended (n : String) (sub : Option (List SchemaAttribute)) (mv : Bool)
    (d : String) (req : Bool) (cv : Option (List String)) (ce : Bool)
    (mu : Mutability) (re : Returned) (u : Uniqueness) (rt : Option ReferenceTypes) :
    SchemaAttribute.init n AttributeType.complex sub mv d req cv ce mu re u rt
      = Except.ok (SchemaAttribute.mk n AttributeType.complex sub mv d req cv ce mu re u rt,
        if sub.isNone then [complexWarningMessage n] else []) := by
  cases sub <;> rfl

/-- C6: serializing the built-in meta-schema and re-parsing the result
reproduces the attribute names, the attribute types, and the
mutability/returned/uniqueness canonical-value enumerations verbatim
(the serializer is modelled from the spec's wire format, `dumps` being an
unimplemented abstract stub in the source). -/
theorem c6_meta_schema_roundtrip :
    ∃ s, parseSCIMSchema (SCIMSchema.dumps Schema_instance) = some s
      ∧ attrNamesOf s = attrNamesOf Schema_instance
      ∧ attrTypesOf s = attrTypesOf Schema_instance
      ∧ subCanonicalOf s "mutability" = some ["readOnly", "readWrite", "immutable", "writeOnly"]
      ∧ subCanonicalOf s "returned" = some ["always", "never", "default", "request"]
      ∧ subCanonicalOf s "uniqueness" = some ["none", "server", "global"] :=
  ⟨Schema_instance, rfl, rfl, rfl, rfl, rfl, rfl⟩

/-- C7: the dispatcher's operation key is the lower-cased verb joined by an
underscore to the endpoint with leading/trailing slashes stripped and
lower-cased, and the backend method of that name is what gets called;
`GET` with `/Users` yields `get_users`. -/
theorem c7_operation_key (method endpoint : String) (obj : BackendClass) :
    call_method_and_endpoint_on_obj method endpoint obj
      = pyCallMethod obj (pyLower method ++ "_" ++ pyLower (pyStrip '/' endpoint))
  ∧ get_lowercase_method "GET" ++ "_" ++ get_endpoint "/Users" = "get_users" :=
  ⟨rfl, by decide⟩

/-- C8: the list-response envelope has exactly the keys `schemas`,
`totalResults` and `Resources`; `schemas` is the one-element ListResponse
URN list, `totalResults` is the input's length and `Resources` is the input
unchanged. -/
theorem c8_list_response_envelope (resources : List JValue) :
    jKeys (create_base_list_response resources) = ["schemas", "totalResults", "Resources"]
  ∧ jLookup (create_base_list_response resources) "schemas"
      = some (JValue.arr [JValue.str "urn:ietf:params:scim:api:messages:2.0:ListResponse"])
  ∧ jLookup (create_base_list_response resources) "totalResults"
      = some (JValue.num resources.length)
  ∧ jLookup (create_base_list_response resources) "Resources"
      = some (JValue.arr resources) :=
  ⟨rfl, rfl, rfl, rfl⟩

/-- C9 counterexample: constructing a schema definition with an empty `id`
and an empty `name` succeeds — `SCIMSchema.__init__` contains no check — so
the claimed non-empty invariant does not exist. -/
theorem c9_counterexample :
    SCIMSchema.init "" "" "some description" []
      = Except.ok (SCIMSchemaRec.mk "" "" "some description" []) := rfl

/-- C9 amended: `SCIMSchema.__init__` enforces no invariant at all —
construction succeeds for every `id`, `name`, `description` and attribute
list, empty strings included. -/
theorem c9_amended (id name description : String) (attributes : List SchemaAttribute) :
    SCIMSchema.init id name description attributes
      = Except.ok (SCIMSchemaRec.mk id name description attributes) := rfl

/-- C10: every successfully constructed `SchemaAttribute` stores the
`required` argument under the instance attribute named `requred`, and has no
attribute named `required`, so reading the flag back under its RFC 7643 name
raises `AttributeError`. -/
theorem c10_required_stored_as_requred (n : String) (t : AttributeType)
    (sub : Option (List SchemaAttribute)) (mv : Bool) (d : String) (req : Bool)
    (cv : Option (List String)) (ce : Bool) (mu : Mutability) (re : Returned)
    (u : Uniqueness) (rt : Option ReferenceTypes) (a : SchemaAttribute) (w : List String)
    (h : SchemaAttribute.init n t sub mv d req cv ce mu re u rt = Except.ok (a, w)) :
    pyGetattr a "requred" = some (PyVal.boolean req)
  ∧ pyGetattr a "required" = none := by
  simp only [SchemaAttribute.init] at h
  split at h
  · simp at h
  · rw [Except.ok.injEq, Prod.mk.injEq] at h
    obtain ⟨ha, -⟩ := h
    subst ha
    exact ⟨rfl, rfl⟩

/-- Witness for C10 at a concrete successful construction. -/
theorem c10_witness :
    pyGetattr (SchemaAttribute.mk "x" AttributeType.string none false "d" true none
      false Mutability.readWrite Returned.default Uniqueness.none none) "requred"
      = some (PyVal.boolean true)
  ∧ pyGetattr (SchemaAttribute.mk "x" AttributeType.string none false "d" true none
      false Mutability.readWrite Returned.default Uniqueness.none none) "required"
      = none :=
  c10_required_stored_as_requred "x" AttributeType.string none false "d" true none
    false Mutability.readWrite Returned.default Uniqueness.none none
    (SchemaAttribute.mk "x" AttributeType.string none false "d" true none false
      Mutability.readWrite Returned.default Uniqueness.none none) [] rfl
